import Mathlib

/-!
Formal model of the Azure Storage Assistant MCP server (`src/server.py`).

The server exposes nine tool handlers over an Azure Blob Storage account.
Each handler is embedded as a pure function from an environment -- the
responses of the external collaborators (the Azure SDK client, the local
filesystem, and the Python `re` and `mimetypes` modules) -- to the string the
handler returns, together with the trace of collaborator calls it performs.

Python exceptions are modelled by `Except Exc`: a fallible collaborator call
returns `.error`, and the `except` clauses of the source are the explicit
`match` arms on those errors.  The argument `client : Bool` models whether the
module-level `blob_service_client` was successfully constructed at startup
(`true`) or left as `None` (`false`).
-/

/-- Python exceptions observable by the handlers: the two Azure exception
classes the source catches by name, the `re.error` raised on a malformed
pattern, and a catch-all for every other `Exception`.  Each carries the text
`str(e)` would produce. -/
inductive Exc where
  | resourceNotFound (msg : String)
  | resourceExists (msg : String)
  | reError (msg : String)
  | other (msg : String)
  deriving DecidableEq

/-- Model of Python `str(e)` on a caught exception. -/
def Exc.str : Exc → String
  | .resourceNotFound m => m
  | .resourceExists m => m
  | .reError m => m
  | .other m => m

/-- One network call into the Azure storage client. -/
inductive Call where
  | listContainers
  | listBlobs (container : String) (nameStartsWith : Option String)
  | getBlobProperties (container blob : String)
  | createContainer (container : String)
  | deleteContainer (container : String)
  | uploadBlob (container blob : String) (data : List Nat) (overwrite : Bool)
      (contentType : Option String)
  | downloadBlob (container blob : String)
  | deleteBlob (container blob : String)
  deriving DecidableEq

/-- One observable side effect of a handler: a storage-client call or a
local-filesystem access. -/
inductive Event where
  | client (c : Call)
  | fsExists (path : String)
  | fsOpenRead (path : String)
  | fsOpenWrite (path : String)
  | fsWrite (path : String) (data : List Nat)
  deriving DecidableEq

/-- Result of one tool handler: the value handed back to the dispatcher
(`.ok` a string) or an uncaught exception (`.error`), paired with the trace
of side effects the handler performed, in order. -/
abbrev OpResult := Except Exc String × List Event

/-- The snapshot returned by `blob_client.get_blob_properties()`: the fields
of the Azure `BlobProperties` object that `get_blob_info` reads. -/
structure BlobProperties where
  size : Nat
  contentType : Option String
  lastModified : String
  creationTime : String
  leaseStatus : String
  metadata : List (String × String)
  deriving DecidableEq

/-- The `info` dictionary built by `get_blob_info` (insertion order of the
source preserved). -/
structure BlobInfo where
  name : String
  size_bytes : Nat
  content_type : Option String
  last_modified : String
  creation_time : String
  lease_status : String
  metadata : List (String × String)
  deriving DecidableEq

/-- Responses of the external collaborators, one field per primitive the
handlers invoke.  Every storage or filesystem primitive may raise
(`Except Exc`); `reSearch pat s` models `re.search(pat, s)` returning whether
a match exists, or raising (e.g. `re.error` on a malformed pattern). -/
structure Env where
  listContainersResp : Except Exc (List String)
  listBlobsResp : String → Option String → Except Exc (List String)
  getBlobPropertiesResp : String → String → Except Exc BlobProperties
  createContainerResp : String → Except Exc Unit
  deleteContainerResp : String → Except Exc Unit
  uploadBlobResp : String → String → List Nat → Bool → Option String → Except Exc Unit
  downloadBlobResp : String → String → Except Exc (List Nat)
  deleteBlobResp : String → String → Except Exc Unit
  pathExists : String → Bool
  openRead : String → Except Exc (List Nat)
  openWrite : String → Except Exc Unit
  guessType : String → Option String
  reSearch : String → String → Except Exc Bool

/-- The fixed message every handler returns when `blob_service_client` is
`None`. -/
def notInitializedMsg : String :=
  "Azure Blob Storage client is not initialized. Check your connection string."

/-- Model of Python `os.path.basename` on POSIX paths: the part after the
last slash. -/
def osPathBasename (p : String) : String :=
  String.mk ((p.data.reverse.takeWhile (fun c => c != '/')).reverse)

/-- Bool-valued list-prefix test (structural, so that it evaluates). -/
def listIsPrefix : List Char → List Char → Bool
  | [], _ => true
  | _ :: _, [] => false
  | a :: as, b :: bs => a == b && listIsPrefix as bs

/-- Model of the `name_starts_with` filter of the Azure blob-listing call
(Python `str.startswith`). -/
def pyStartsWith (pre s : String) : Bool :=
  listIsPrefix pre.data s.data

/-- Model of Python `str.lower` (ASCII; the confirmation tokens compared are
ASCII). -/
def pyLower (s : String) : String :=
  String.mk (s.data.map Char.toLower)

/-- server.py `if not blob_name: blob_name = os.path.basename(local_file_path)`
in `upload_blob` (`None` and the empty string are both falsy). -/
def effectiveBlobName (local_file_path : String) : Option String → String
  | none => osPathBasename local_file_path
  | some s => if s = "" then osPathBasename local_file_path else s

/-- server.py `if not local_file_path: local_file_path = os.path.basename(blob_name)`
in `download_blob`. -/
def effectiveLocalPath (blob_name : String) : Option String → String
  | none => osPathBasename blob_name
  | some s => if s = "" then osPathBasename blob_name else s

/-- Lowercase hex digit, as used by `json.dumps` escape sequences. -/
def hexDigit (n : Nat) : Char :=
  if n < 10 then Char.ofNat (48 + n) else Char.ofNat (87 + n)

/-- Four lowercase hex digits. -/
def hex4 (n : Nat) : String :=
  String.mk [hexDigit (n / 4096 % 16), hexDigit (n / 256 % 16), hexDigit (n / 16 % 16),
    hexDigit (n % 16)]

/-- Model of the `json.dumps` escaping of one character with the default
`ensure_ascii=True`: printable ASCII other than quote and backslash is kept,
everything else is escaped. -/
def jsonEscapeChar (c : Char) : String :=
  if c = '"' then "\\\""
  else if c = '\\' then "\\\\"
  else if c = '\n' then "\\n"
  else if c = '\r' then "\\r"
  else if c = '\t' then "\\t"
  else if c.toNat = 8 then "\\b"
  else if c.toNat = 12 then "\\f"
  else if c.toNat < 32 then "\\u" ++ hex4 c.toNat
  else if c.toNat < 127 then String.singleton c
  else if c.toNat < 65536 then "\\u" ++ hex4 c.toNat
  else
    "\\u" ++ hex4 (55296 + (c.toNat - 65536) / 1024) ++ "\\u" ++ hex4 (56320 + (c.toNat - 65536) % 1024)

/-- Model of a `json.dumps` string literal. -/
def jsonStr (s : String) : String :=
  "\"" ++ String.join (s.data.map jsonEscapeChar) ++ "\""

/-- A string-or-`None` value rendered by `json.dumps`. -/
def jsonNullableStr : Option String → String
  | none => "null"
  | some s => jsonStr s

/-- The entries of the nested `metadata` dictionary at `indent=2`, nesting
depth 2 (four spaces). -/
def jsonMetadataEntries : List (String × String) → String
  | [] => ""
  | [(k, v)] => "    " ++ jsonStr k ++ ": " ++ jsonStr v
  | (k, v) :: rest => "    " ++ jsonStr k ++ ": " ++ jsonStr v ++ ",\n" ++ jsonMetadataEntries rest

/-- The nested `metadata` dictionary rendered by `json.dumps(info, indent=2)`. -/
def jsonMetadataDict (m : List (String × String)) : String :=
  bif m.isEmpty then "\x7b\x7d"
  else "\x7b\n" ++ jsonMetadataEntries m ++ "\n  \x7d"

/-- Model of `json.dumps(info, indent=2)` for the fixed-shape `info`
dictionary of `get_blob_info`. -/
def jsonDumpsBlobInfo (info : BlobInfo) : String :=
  "\x7b\n  \"name\": " ++ jsonStr info.name ++
  ",\n  \"size_bytes\": " ++ toString info.size_bytes ++
  ",\n  \"content_type\": " ++ jsonNullableStr info.content_type ++
  ",\n  \"last_modified\": " ++ jsonStr info.last_modified ++
  ",\n  \"creation_time\": " ++ jsonStr info.creation_time ++
  ",\n  \"lease_status\": " ++ jsonStr info.lease_status ++
  ",\n  \"metadata\": " ++ jsonMetadataDict info.metadata ++ "\n\x7d"

/-- The list comprehension of `search_blobs`:
`[blob for blob in all_blobs if re.search(pattern, blob)]`, where `re.search`
may raise part-way through (aborting the comprehension). -/
def listFilterSearch (rs : String → String → Except Exc Bool) (pattern : String) :
    List String → Except Exc (List String)
  | [] => .ok []
  | b :: rest =>
    match rs pattern b with
    | .ok true => (listFilterSearch rs pattern rest).map (b :: ·)
    | .ok false => listFilterSearch rs pattern rest
    | .error e => .error e

/-- server.py lines 25-36: the `list_containers` tool. -/
def list_containers (env : Env) (client : Bool) : OpResult :=
  bif client then
    match env.listContainersResp with
    | .ok containers =>
      bif containers.isEmpty then
        (.ok "No containers found in this storage account.", [.client .listContainers])
      else
        (.ok ("Found " ++ toString containers.length ++ " containers: " ++
          String.intercalate ", " containers), [.client .listContainers])
    | .error e => (.ok ("Error listing containers: " ++ e.str), [.client .listContainers])
  else (.ok notInitializedMsg, [])

/-- server.py lines 38-50: the `list_blobs` tool (`pfx` is the parameter the
source calls `prefix`, default `""`). -/
def list_blobs (env : Env) (client : Bool) (container pfx : String) : OpResult :=
  bif client then
    match env.listBlobsResp container (some pfx) with
    | .ok blobs =>
      bif blobs.isEmpty then
        (.ok ("No blobs found in " ++ container ++
          (if pfx = "" then "." else " with prefix '" ++ pfx ++ "'")),
         [.client (.listBlobs container (some pfx))])
      else
        (.ok ("Found " ++ toString blobs.length ++ " blobs in " ++ container ++ ": " ++
          String.intercalate ", " blobs), [.client (.listBlobs container (some pfx))])
    | .error e =>
      (.ok ("Error listing blobs in " ++ container ++ ": " ++ e.str),
       [.client (.listBlobs container (some pfx))])
  else (.ok notInitializedMsg, [])

/-- server.py lines 52-75: the `get_blob_info` tool. -/
def get_blob_info (env : Env) (client : Bool) (container blob_name : String) : OpResult :=
  bif client then
    match env.getBlobPropertiesResp container blob_name with
    | .ok properties =>
      (.ok (jsonDumpsBlobInfo
        { name := blob_name
          size_bytes := properties.size
          content_type := properties.contentType
          last_modified := properties.lastModified
          creation_time := properties.creationTime
          lease_status := properties.leaseStatus
          metadata := bif properties.metadata.isEmpty then [] else properties.metadata }),
       [.client (.getBlobProperties container blob_name)])
    | .error (.resourceNotFound _) =>
      (.ok ("Blob '" ++ blob_name ++ "' not found in container '" ++ container ++ "'."),
       [.client (.getBlobProperties container blob_name)])
    | .error e =>
      (.ok ("Error getting blob info: " ++ e.str),
       [.client (.getBlobProperties container blob_name)])
  else (.ok notInitializedMsg, [])

/-- server.py lines 77-88: the `create_container` tool. -/
def create_container (env : Env) (client : Bool) (container : String) : OpResult :=
  bif client then
    match env.createContainerResp container with
    | .ok _ =>
      (.ok ("Container '" ++ container ++ "' created successfully."),
       [.client (.createContainer container)])
    | .error (.resourceExists _) =>
      (.ok ("Container '" ++ container ++ "' already exists."),
       [.client (.createContainer container)])
    | .error e =>
      (.ok ("Error creating container: " ++ e.str), [.client (.createContainer container)])
  else (.ok notInitializedMsg, [])

/-- server.py lines 90-104: the `delete_container` tool (the source default
for `confirm` is `"no"`). -/
def delete_container (env : Env) (client : Bool) (container confirm : String) : OpResult :=
  bif client then
    if pyLower confirm ≠ "yes" then
      (.ok ("To delete container '" ++ container ++ "', set confirm parameter to 'yes'."), [])
    else
      match env.deleteContainerResp container with
      | .ok _ =>
        (.ok ("Container '" ++ container ++ "' deleted successfully."),
         [.client (.deleteContainer container)])
      | .error (.resourceNotFound _) =>
        (.ok ("Container '" ++ container ++ "' not found."),
         [.client (.deleteContainer container)])
      | .error e =>
        (.ok ("Error deleting container: " ++ e.str), [.client (.deleteContainer container)])
  else (.ok notInitializedMsg, [])

/-- server.py lines 106-135: the `upload_blob` tool (`blob_name` defaults to
`None`). -/
def upload_blob (env : Env) (client : Bool) (container local_file_path : String)
    (blob_name : Option String) : OpResult :=
  bif client then
    bif env.pathExists local_file_path then
      match env.openRead local_file_path with
      | .ok data =>
        match env.uploadBlobResp container (effectiveBlobName local_file_path blob_name) data
            true (env.guessType local_file_path) with
        | .ok _ =>
          (.ok ("File uploaded successfully to '" ++ container ++ "/" ++
            effectiveBlobName local_file_path blob_name ++ "'"),
           [.fsExists local_file_path, .fsOpenRead local_file_path,
            .client (.uploadBlob container (effectiveBlobName local_file_path blob_name) data
              true (env.guessType local_file_path))])
        | .error (.resourceNotFound _) =>
          (.ok ("Container '" ++ container ++ "' not found."),
           [.fsExists local_file_path, .fsOpenRead local_file_path,
            .client (.uploadBlob container (effectiveBlobName local_file_path blob_name) data
              true (env.guessType local_file_path))])
        | .error e =>
          (.ok ("Error uploading file: " ++ e.str),
           [.fsExists local_file_path, .fsOpenRead local_file_path,
            .client (.uploadBlob container (effectiveBlobName local_file_path blob_name) data
              true (env.guessType local_file_path))])
      | .error (.resourceNotFound _) =>
        (.ok ("Container '" ++ container ++ "' not found."),
         [.fsExists local_file_path, .fsOpenRead local_file_path])
      | .error e =>
        (.ok ("Error uploading file: " ++ e.str),
         [.fsExists local_file_path, .fsOpenRead local_file_path])
    else
      (.ok ("Local file '" ++ local_file_path ++ "' not found."), [.fsExists local_file_path])
  else (.ok notInitializedMsg, [])

/-- server.py lines 137-157: the `download_blob` tool (`local_file_path`
defaults to `None`).  Note the destination file is opened for writing
(`"wb"`, truncating) before the blob is fetched. -/
def download_blob (env : Env) (client : Bool) (container blob_name : String)
    (local_file_path : Option String) : OpResult :=
  bif client then
    match env.openWrite (effectiveLocalPath blob_name local_file_path) with
    | .ok _ =>
      match env.downloadBlobResp container blob_name with
      | .ok data =>
        (.ok ("Blob '" ++ blob_name ++ "' downloaded successfully to '" ++
          effectiveLocalPath blob_name local_file_path ++ "'"),
         [.fsOpenWrite (effectiveLocalPath blob_name local_file_path),
          .client (.downloadBlob container blob_name),
          .fsWrite (effectiveLocalPath blob_name local_file_path) data])
      | .error (.resourceNotFound _) =>
        (.ok ("Blob '" ++ blob_name ++ "' not found in container '" ++ container ++ "'."),
         [.fsOpenWrite (effectiveLocalPath blob_name local_file_path),
          .client (.downloadBlob container blob_name)])
      | .error e =>
        (.ok ("Error downloading blob: " ++ e.str),
         [.fsOpenWrite (effectiveLocalPath blob_name local_file_path),
          .client (.downloadBlob container blob_name)])
    | .error (.resourceNotFound _) =>
      (.ok ("Blob '" ++ blob_name ++ "' not found in container '" ++ container ++ "'."),
       [.fsOpenWrite (effectiveLocalPath blob_name local_file_path)])
    | .error e =>
      (.ok ("Error downloading blob: " ++ e.str),
       [.fsOpenWrite (effectiveLocalPath blob_name local_file_path)])
  else (.ok notInitializedMsg, [])

/-- server.py lines 159-174: the `delete_blob` tool (the source default for
`confirm` is `"no"`). -/
def delete_blob (env : Env) (client : Bool) (container blob_name confirm : String) : OpResult :=
  bif client then
    if pyLower confirm ≠ "yes" then
      (.ok ("To delete blob '" ++ blob_name ++ "', set confirm parameter to 'yes'."), [])
    else
      match env.deleteBlobResp container blob_name with
      | .ok _ =>
        (.ok ("Blob '" ++ blob_name ++ "' deleted successfully from container '" ++
          container ++ "'."), [.client (.deleteBlob container blob_name)])
      | .error (.resourceNotFound _) =>
        (.ok ("Blob '" ++ blob_name ++ "' not found in container '" ++ container ++ "'."),
         [.client (.deleteBlob container blob_name)])
      | .error e =>
        (.ok ("Error deleting blob: " ++ e.str), [.client (.deleteBlob container blob_name)])
  else (.ok notInitializedMsg, [])

/-- server.py lines 176-191: the `search_blobs` tool.  The listing call
passes no `name_starts_with` argument (`none`); the pattern is handed to
`re.search` once per listed name inside the comprehension. -/
def search_blobs (env : Env) (client : Bool) (container pattern : String) : OpResult :=
  bif client then
    match env.listBlobsResp container none with
    | .ok all_blobs =>
      match listFilterSearch env.reSearch pattern all_blobs with
      | .ok matching_blobs =>
        bif matching_blobs.isEmpty then
          (.ok ("No blobs matching pattern '" ++ pattern ++ "' found in " ++ container ++ "."),
           [.client (.listBlobs container none)])
        else
          (.ok ("Found " ++ toString matching_blobs.length ++ " matching blobs in " ++
            container ++ ": " ++ String.intercalate ", " matching_blobs),
           [.client (.listBlobs container none)])
      | .error e =>
        (.ok ("Error searching blobs: " ++ e.str), [.client (.listBlobs container none)])
    | .error e =>
      (.ok ("Error searching blobs: " ++ e.str), [.client (.listBlobs container none)])
  else (.ok notInitializedMsg, [])

/-- One stored blob of the reference storage-account model: its content bytes
and the properties the service reports for it. -/
structure Blob where
  content : List Nat
  contentType : Option String
  lastModified : String
  creationTime : String
  leaseStatus : String
  metadata : List (String × String)
  deriving DecidableEq

/-- A storage account: containers (in listing order) each holding named
blobs. -/
structure Storage where
  containers : List (String × List (String × Blob))
  deriving DecidableEq

/-- The blobs of a container, when the container exists. -/
def Storage.findContainerBlobs (s : Storage) (c : String) : Option (List (String × Blob)) :=
  match s.containers.find? (fun p => p.1 = c) with
  | some p => some p.2
  | none => none

/-- A stored blob, when both the container and the blob exist. -/
def Storage.findBlob (s : Storage) (c b : String) : Option Blob :=
  match s.findContainerBlobs c with
  | some bl =>
    match bl.find? (fun p => p.1 = b) with
    | some p => some p.2
    | none => none
  | none => none

/-- Reference model of the external collaborators backed by a storage account
`s`, a local filesystem `fs` (path to content bytes), and a regex matcher
`rs` standing in for `re.search`: the service answers every call honestly
per the Azure Blob Storage contract (not-found and already-exists raises
included), and `get_blob_properties` reports the true byte length of the
stored content. -/
def envOfStorage (s : Storage) (fs : List (String × List Nat))
    (rs : String → String → Except Exc Bool) : Env where
  listContainersResp := .ok (s.containers.map Prod.fst)
  listBlobsResp := fun c pfx =>
    match s.findContainerBlobs c with
    | some bl => .ok ((bl.map Prod.fst).filter (fun n => pyStartsWith (pfx.getD "") n))
    | none => .error (.resourceNotFound "The specified container does not exist.")
  getBlobPropertiesResp := fun c b =>
    match s.findBlob c b with
    | some blob =>
      .ok { size := blob.content.length, contentType := blob.contentType,
            lastModified := blob.lastModified, creationTime := blob.creationTime,
            leaseStatus := blob.leaseStatus, metadata := blob.metadata }
    | none => .error (.resourceNotFound "The specified blob does not exist.")
  createContainerResp := fun c =>
    match s.findContainerBlobs c with
    | some _ => .error (.resourceExists "The specified container already exists.")
    | none => .ok ()
  deleteContainerResp := fun c =>
    match s.findContainerBlobs c with
    | some _ => .ok ()
    | none => .error (.resourceNotFound "The specified container does not exist.")
  uploadBlobResp := fun c _ _ _ _ =>
    match s.findContainerBlobs c with
    | some _ => .ok ()
    | none => .error (.resourceNotFound "The specified container does not exist.")
  downloadBlobResp := fun c b =>
    match s.findBlob c b with
    | some blob => .ok blob.content
    | none => .error (.resourceNotFound "The specified blob does not exist.")
  deleteBlobResp := fun c b =>
    match s.findBlob c b with
    | some _ => .ok ()
    | none => .error (.resourceNotFound "The specified blob does not exist.")
  pathExists := fun p => ((fs.find? (fun q => q.1 = p)).map Prod.snd).isSome
  openRead := fun p =>
    match fs.find? (fun q => q.1 = p) with
    | some q => .ok q.2
    | none => .error (.other "No such file or directory")
  openWrite := fun _ => .ok ()
  guessType := fun _ => none
  reSearch := rs

/-- A matcher for `re.search` whose pattern always compiles and matches a
subject `b` exactly when `m b` (a pure predicate, never raising). -/
def pureSearch (m : String → Bool) : String → String → Except Exc Bool :=
  fun _ b => .ok (m b)

/-- A collaborator environment in which every storage call succeeds trivially
(empty account, empty filesystem); used to exercise the handler paths that
never reach the collaborators. -/
def envConst : Env where
  listContainersResp := .ok []
  listBlobsResp := fun _ _ => .ok []
  getBlobPropertiesResp := fun _ _ =>
    .ok { size := 0, contentType := none, lastModified := "", creationTime := "",
          leaseStatus := "unlocked", metadata := [] }
  createContainerResp := fun _ => .ok ()
  deleteContainerResp := fun _ => .ok ()
  uploadBlobResp := fun _ _ _ _ _ => .ok ()
  downloadBlobResp := fun _ _ => .ok []
  deleteBlobResp := fun _ _ => .ok ()
  pathExists := fun _ => false
  openRead := fun _ => .ok []
  openWrite := fun _ => .ok ()
  guessType := fun _ => none
  reSearch := fun _ _ => .ok false

/-- A local filesystem updated by the side-effect trace of a handler:
opening a file for writing (`"wb"`) creates or truncates it; a write stores
the bytes.  Storage-client calls and read accesses leave it unchanged. -/
def fsSet (fs : List (String × List Nat)) (p : String) (d : List Nat) :
    List (String × List Nat) :=
  match fs with
  | [] => [(p, d)]
  | (q, e) :: rest => if q = p then (p, d) :: rest else (q, e) :: fsSet rest p d

/-- Lookup of a path in the local-filesystem model. -/
def fsLookup (fs : List (String × List Nat)) (p : String) : Option (List Nat) :=
  match fs with
  | [] => none
  | (q, e) :: rest => if q = p then some e else fsLookup rest p

/-- Effect of one traced event on the local filesystem. -/
def fsApplyEvent (fs : List (String × List Nat)) : Event → List (String × List Nat)
  | .fsOpenWrite p => fsSet fs p []
  | .fsWrite p d => fsSet fs p d
  | _ => fs

/-- Effect of a whole trace on the local filesystem. -/
def fsApply (evs : List Event) (fs : List (String × List Nat)) : List (String × List Nat) :=
  evs.foldl fsApplyEvent fs

/-- Collaborators for which every local path exists and reads as the two
bytes `hi`. -/
def envFile : Env :=
  { envConst with pathExists := fun _ => true, openRead := fun _ => .ok [104, 105] }

/-- Collaborators for an account listing exactly the containers `a` and
`b`. -/
def envTwoContainers : Env :=
  { envConst with listContainersResp := .ok ["a", "b"] }

/-- Collaborators for which every blob fetch raises the Azure not-found
exception. -/
def envBlobMissing : Env :=
  { envConst with
    downloadBlobResp := fun _ _ => .error (.resourceNotFound "The specified blob does not exist.") }

/-- A contentless stored blob used to populate example containers. -/
def blob0 : Blob :=
  { content := [], contentType := none, lastModified := "", creationTime := "",
    leaseStatus := "unlocked", metadata := [] }

/-- The container contents of the worked example of the specification:
blobs named `abc`, `bcd` and `axy`. -/
def exampleBlobs : List (String × Blob) :=
  [("abc", blob0), ("bcd", blob0), ("axy", blob0)]

/-- An account holding one container `docs` with the three example blobs. -/
def exampleStorage : Storage :=
  { containers := [("docs", exampleBlobs)] }

/-- A three-byte blob carrying one metadata pair, for exercising
`get_blob_info`. -/
def blobC6 : Blob :=
  { content := [104, 105, 33], contentType := some "text/plain",
    lastModified := "2024-01-02 03:04:05+00:00", creationTime := "2024-01-01 00:00:00+00:00",
    leaseStatus := "unlocked", metadata := [("k", "v")] }

/-- An account holding one container `c` with the single blob `b`. -/
def storageC6 : Storage :=
  { containers := [("c", [("b", blobC6)])] }

/-- The message `re.error` carries for the malformed pattern `(`. -/
def reMalformedMsg : String := "missing ), unterminated subpattern at position 0"

/-- Collaborators for an account whose `docs` container exists but holds no
blobs, with `re.search` raising `re.error` on every subject (as pattern
compilation does for a malformed pattern). -/
def envEmptyMalformed : Env :=
  envOfStorage { containers := [("docs", [])] } []
    (fun _ _ => .error (.reError reMalformedMsg))

/-- Collaborators for an account whose `docs` container holds one blob,
with `re.search` raising `re.error` on every subject. -/
def envOneMalformed : Env :=
  envOfStorage { containers := [("docs", [("x.txt", blob0)])] } []
    (fun _ _ => .error (.reError reMalformedMsg))

theorem pyStartsWith_empty (s : String) : pyStartsWith "" s = true := rfl

theorem filter_pyStartsWith_empty (l : List String) :
    l.filter (fun n => pyStartsWith "" n) = l := by
  induction l with
  | nil => rfl
  | cons a t ih => simp [List.filter_cons, pyStartsWith_empty, ih]

theorem listFilterSearch_pureSearch (m : String → Bool) (pattern : String) (l : List String) :
    listFilterSearch (pureSearch m) pattern l = .ok (l.filter m) := by
  induction l with
  | nil => rfl
  | cons a t ih =>
    simp only [listFilterSearch, pureSearch]
    cases hm : m a with
    | true => simp [List.filter_cons, hm, ih, Except.map]
    | false => simp [List.filter_cons, hm, ih]

theorem ifEmptyList_eq (l : List (String × String)) :
    (bif l.isEmpty then ([] : List (String × String)) else l) = l := by
  cases l <;> rfl

theorem fsLookup_fsSet (fs : List (String × List Nat)) (p : String) (d : List Nat) :
    fsLookup (fsSet fs p d) p = some d := by
  induction fs with
  | nil => simp [fsSet, fsLookup]
  | cons pr tl ih =>
    obtain ⟨q, e⟩ := pr
    by_cases hq : q = p
    · simp [fsSet, fsLookup, hq]
    · simp [fsSet, fsLookup, hq, ih]

theorem total_list_containers (env : Env) (client : Bool) :
    ∃ r, (list_containers env client).1 = Except.ok r := by
  unfold list_containers
  simp only [Bool.cond_eq_ite]
  repeat' split
  all_goals exact ⟨_, rfl⟩

theorem total_list_blobs (env : Env) (client : Bool) (c pfx : String) :
    ∃ r, (list_blobs env client c pfx).1 = Except.ok r := by
  unfold list_blobs
  simp only [Bool.cond_eq_ite]
  repeat' split
  all_goals exact ⟨_, rfl⟩

theorem total_get_blob_info (env : Env) (client : Bool) (c b : String) :
    ∃ r, (get_blob_info env client c b).1 = Except.ok r := by
  unfold get_blob_info
  simp only [Bool.cond_eq_ite]
  repeat' split
  all_goals exact ⟨_, rfl⟩

theorem total_create_container (env : Env) (client : Bool) (c : String) :
    ∃ r, (create_container env client c).1 = Except.ok r := by
  unfold create_container
  simp only [Bool.cond_eq_ite]
  repeat' split
  all_goals exact ⟨_, rfl⟩

theorem total_delete_container (env : Env) (client : Bool) (c confirm : String) :
    ∃ r, (delete_container env client c confirm).1 = Except.ok r := by
  unfold delete_container
  simp only [Bool.cond_eq_ite]
  repeat' split
  all_goals exact ⟨_, rfl⟩

theorem total_upload_blob (env : Env) (client : Bool) (c p : String) (obn : Option String) :
    ∃ r, (upload_blob env client c p obn).1 = Except.ok r := by
  unfold upload_blob
  simp only [Bool.cond_eq_ite]
  repeat' split
  all_goals exact ⟨_, rfl⟩

theorem total_download_blob (env : Env) (client : Bool) (c b : String) (olp : Option String) :
    ∃ r, (download_blob env client c b olp).1 = Except.ok r := by
  unfold download_blob
  simp only [Bool.cond_eq_ite]
  repeat' split
  all_goals exact ⟨_, rfl⟩

theorem total_delete_blob (env : Env) (client : Bool) (c b confirm : String) :
    ∃ r, (delete_blob env client c b confirm).1 = Except.ok r := by
  unfold delete_blob
  simp only [Bool.cond_eq_ite]
  repeat' split
  all_goals exact ⟨_, rfl⟩

theorem total_search_blobs (env : Env) (client : Bool) (c pattern : String) :
    ∃ r, (search_blobs env client c pattern).1 = Except.ok r := by
  unfold search_blobs
  simp only [Bool.cond_eq_ite]
  repeat' split
  all_goals exact ⟨_, rfl⟩

/-- Claim C1: with an uninitialized storage client, every one of the nine
handlers, at every argument value, returns the fixed not-initialized message
and performs no storage-client call and no local-filesystem access (its
side-effect trace is empty). -/
theorem claim_C1 (env : Env) (c b p pat confirm pfx : String)
    (obn olp : Option String) :
    list_containers env false = (.ok notInitializedMsg, []) ∧
    list_blobs env false c pfx = (.ok notInitializedMsg, []) ∧
    get_blob_info env false c b = (.ok notInitializedMsg, []) ∧
    create_container env false c = (.ok notInitializedMsg, []) ∧
    delete_container env false c confirm = (.ok notInitializedMsg, []) ∧
    upload_blob env false c p obn = (.ok notInitializedMsg, []) ∧
    download_blob env false c b olp = (.ok notInitializedMsg, []) ∧
    delete_blob env false c b confirm = (.ok notInitializedMsg, []) ∧
    search_blobs env false c pat = (.ok notInitializedMsg, []) :=
  ⟨rfl, rfl, rfl, rfl, rfl, rfl, rfl, rfl, rfl⟩

/-- Claim C2: with an initialized client, `delete_container` and
`delete_blob` return the confirmation prompt naming the target and perform
no storage-client call whenever the lowercased confirmation token differs
from "yes" (the source default "no" included), and perform exactly the
delete call when it equals "yes" in any case. -/
theorem claim_C2 (env : Env) (c b confirm : String) :
    (pyLower confirm ≠ "yes" →
      delete_container env true c confirm =
        (.ok ("To delete container '" ++ c ++ "', set confirm parameter to 'yes'."), []) ∧
      delete_blob env true c b confirm =
        (.ok ("To delete blob '" ++ b ++ "', set confirm parameter to 'yes'."), [])) ∧
    (pyLower confirm = "yes" →
      (delete_container env true c confirm).2 = [Event.client (Call.deleteContainer c)] ∧
      (delete_blob env true c b confirm).2 = [Event.client (Call.deleteBlob c b)]) := by
  constructor
  · intro h
    constructor
    · simp only [delete_container, cond_true, if_pos h]
    · simp only [delete_blob, cond_true, if_pos h]
  · intro h
    have hne : ¬(pyLower confirm ≠ "yes") := fun hn => hn h
    constructor
    · simp only [delete_container, cond_true, if_neg hne]
      cases hres : env.deleteContainerResp c with
      | ok u => rfl
      | error e => cases e <;> rfl
    · simp only [delete_blob, cond_true, if_neg hne]
      cases hres : env.deleteBlobResp c b with
      | ok u => rfl
      | error e => cases e <;> rfl

theorem claim_C2_witness :
    (delete_container envConst true "x" "no" =
      (.ok "To delete container 'x', set confirm parameter to 'yes'.", []) ∧
     delete_blob envConst true "x" "b" "no" =
      (.ok "To delete blob 'b', set confirm parameter to 'yes'.", [])) ∧
    ((delete_container envConst true "x" "YES").2 = [Event.client (Call.deleteContainer "x")] ∧
     (delete_blob envConst true "x" "b" "YES").2 = [Event.client (Call.deleteBlob "x" "b")]) :=
  ⟨(claim_C2 envConst "x" "b" "no").1 (by decide),
   (claim_C2 envConst "x" "b" "YES").2 (by decide)⟩

/-- Claim C4: every handler, on every path -- success or any exception a
storage or local-filesystem primitive may raise -- returns a string to the
dispatcher and never propagates an exception. -/
theorem claim_C4 :
    (∀ env client, ∃ r, (list_containers env client).1 = Except.ok r) ∧
    (∀ env client c pfx, ∃ r, (list_blobs env client c pfx).1 = Except.ok r) ∧
    (∀ env client c b, ∃ r, (get_blob_info env client c b).1 = Except.ok r) ∧
    (∀ env client c, ∃ r, (create_container env client c).1 = Except.ok r) ∧
    (∀ env client c confirm, ∃ r, (delete_container env client c confirm).1 = Except.ok r) ∧
    (∀ env client c p obn, ∃ r, (upload_blob env client c p obn).1 = Except.ok r) ∧
    (∀ env client c b olp, ∃ r, (download_blob env client c b olp).1 = Except.ok r) ∧
    (∀ env client c b confirm, ∃ r, (delete_blob env client c b confirm).1 = Except.ok r) ∧
    (∀ env client c pattern, ∃ r, (search_blobs env client c pattern).1 = Except.ok r) :=
  ⟨total_list_containers, total_list_blobs, total_get_blob_info, total_create_container,
   total_delete_container, total_upload_blob, total_download_blob, total_delete_blob,
   total_search_blobs⟩

/-- Claim C5: with an initialized client, `upload_blob` on a local path that
does not exist returns the missing-file message naming that path, and its
trace holds only, and exactly, the existence check -- no storage-client
call happened before or after it. -/
theorem claim_C5 (env : Env) (c p : String) (obn : Option String)
    (h : env.pathExists p = false) :
    upload_blob env true c p obn =
      (.ok ("Local file '" ++ p ++ "' not found."), [Event.fsExists p]) ∧
    ∀ cc : Call, Event.client cc ∉ (upload_blob env true c p obn).2 := by
  have heq : upload_blob env true c p obn =
      (.ok ("Local file '" ++ p ++ "' not found."), [Event.fsExists p]) := by
    simp only [upload_blob, h, cond_true, cond_false]
  refine ⟨heq, ?_⟩
  intro cc hmem
  rw [heq] at hmem
  simp at hmem

theorem claim_C5_witness :
    upload_blob envConst true "c" "data.bin" none =
      (.ok "Local file 'data.bin' not found.", [Event.fsExists "data.bin"]) :=
  (claim_C5 envConst "c" "data.bin" none rfl).1

/-- Claim C7: with an initialized client and an existing, readable local
file, the upload call that `upload_blob` issues stores the blob under the
base name of the local path when no target name is supplied (and under the
supplied name otherwise), always sets the overwrite flag, and attaches the
content type inferred from the local file name. -/
theorem claim_C7 (env : Env) (c p : String) (data : List Nat)
    (h1 : env.pathExists p = true) (h2 : env.openRead p = .ok data) :
    (upload_blob env true c p none).2 =
      [Event.fsExists p, Event.fsOpenRead p,
       Event.client (Call.uploadBlob c (osPathBasename p) data true (env.guessType p))] ∧
    ∀ bn : String, bn ≠ "" → (upload_blob env true c p (some bn)).2 =
      [Event.fsExists p, Event.fsOpenRead p,
       Event.client (Call.uploadBlob c bn data true (env.guessType p))] := by
  constructor
  · simp only [upload_blob, h1, h2, cond_true]
    cases hres : env.uploadBlobResp c (effectiveBlobName p none) data true (env.guessType p) with
    | ok u => rfl
    | error e => cases e <;> rfl
  · intro bn hbn
    have hbnE : effectiveBlobName p (some bn) = bn := by
      simp only [effectiveBlobName, if_neg hbn]
    simp only [upload_blob, h1, h2, hbnE, cond_true]
    cases hres : env.uploadBlobResp c bn data true (env.guessType p) with
    | ok u => rfl
    | error e => cases e <;> rfl

theorem claim_C7_witness :
    (upload_blob envFile true "c" "dir/report.txt" none).2 =
      [Event.fsExists "dir/report.txt", Event.fsOpenRead "dir/report.txt",
       Event.client (Call.uploadBlob "c" "report.txt" [104, 105] true none)] :=
  (claim_C7 envFile "c" "dir/report.txt" [104, 105] rfl rfl).1

/-- Claim C9: `list_containers` over an account with zero containers returns
the fixed no-containers message; over containers `a` and `b` it returns the
message with count 2 and the two names comma-joined. -/
theorem claim_C9 (envA envB : Env)
    (h0 : envA.listContainersResp = .ok [])
    (h2 : envB.listContainersResp = .ok ["a", "b"]) :
    list_containers envA true =
      (.ok "No containers found in this storage account.", [Event.client Call.listContainers]) ∧
    list_containers envB true =
      (.ok "Found 2 containers: a, b", [Event.client Call.listContainers]) := by
  constructor
  · simp only [list_containers, h0, cond_true]
    rfl
  · simp only [list_containers, h2, cond_true]
    rfl

theorem claim_C9_witness :
    list_containers envConst true =
      (.ok "No containers found in this storage account.", [Event.client Call.listContainers]) ∧
    list_containers envTwoContainers true =
      (.ok "Found 2 containers: a, b", [Event.client Call.listContainers]) :=
  claim_C9 envConst envTwoContainers rfl rfl

/-- Claim C10: `download_blob` opens (creating or truncating) the local
destination before fetching the blob, so when the blob is missing it returns
the not-found message while the destination file has nevertheless been
created or truncated to zero bytes on every starting filesystem. -/
theorem claim_C10 (env : Env) (c b p msg : String) (fs : List (String × List Nat))
    (hp : p ≠ "") (hw : env.openWrite p = .ok ())
    (hd : env.downloadBlobResp c b = .error (.resourceNotFound msg)) :
    download_blob env true c b (some p) =
      (.ok ("Blob '" ++ b ++ "' not found in container '" ++ c ++ "'."),
       [Event.fsOpenWrite p, Event.client (Call.downloadBlob c b)]) ∧
    fsLookup (fsApply (download_blob env true c b (some p)).2 fs) p = some [] := by
  have hpE : effectiveLocalPath b (some p) = p := by
    simp only [effectiveLocalPath, if_neg hp]
  have heq : download_blob env true c b (some p) =
      (.ok ("Blob '" ++ b ++ "' not found in container '" ++ c ++ "'."),
       [Event.fsOpenWrite p, Event.client (Call.downloadBlob c b)]) := by
    simp only [download_blob, hpE, hw, hd, cond_true]
  refine ⟨heq, ?_⟩
  rw [heq]
  simp only [fsApply, List.foldl, fsApplyEvent]
  exact fsLookup_fsSet fs p []

theorem claim_C10_witness :
    download_blob envBlobMissing true "c" "b.txt" (some "out.bin") =
      (.ok "Blob 'b.txt' not found in container 'c'.",
       [Event.fsOpenWrite "out.bin", Event.client (Call.downloadBlob "c" "b.txt")]) ∧
    fsLookup (fsApply (download_blob envBlobMissing true "c" "b.txt" (some "out.bin")).2 [])
      "out.bin" = some [] :=
  claim_C10 envBlobMissing "c" "b.txt" "out.bin" "The specified blob does not exist." []
    (by decide) rfl rfl

/-- Claim C3: with an initialized client and an existing container,
`search_blobs` reports exactly the subset of the blob names that
`list_blobs` (with empty prefix) reports whose names contain a match for
the pattern, the matching being `re.search` (substring-style search, not a
full match); concretely, pattern `^a` -- a match exists exactly when the
name starts with `a` -- over blobs `abc`, `bcd`, `axy` selects `abc` and
`axy`. -/
theorem claim_C3 :
    (∀ (s : Storage) (fs : List (String × List Nat)) (m : String → Bool)
       (c pattern : String) (bl : List (String × Blob)),
       s.findContainerBlobs c = some bl →
       (search_blobs (envOfStorage s fs (pureSearch m)) true c pattern).1 =
         .ok (bif ((bl.map Prod.fst).filter m).isEmpty then
            "No blobs matching pattern '" ++ pattern ++ "' found in " ++ c ++ "."
          else
            "Found " ++ toString ((bl.map Prod.fst).filter m).length ++
              " matching blobs in " ++ c ++ ": " ++
              String.intercalate ", " ((bl.map Prod.fst).filter m)) ∧
       (list_blobs (envOfStorage s fs (pureSearch m)) true c "").1 =
         .ok (bif (bl.map Prod.fst).isEmpty then "No blobs found in " ++ c ++ "."
          else
            "Found " ++ toString (bl.map Prod.fst).length ++ " blobs in " ++ c ++ ": " ++
              String.intercalate ", " (bl.map Prod.fst))) ∧
    (search_blobs (envOfStorage exampleStorage [] (pureSearch (fun n => pyStartsWith "a" n)))
        true "docs" "^a").1 =
      .ok "Found 2 matching blobs in docs: abc, axy" := by
  constructor
  · intro s fs m c pattern bl hbl
    have hnames : (envOfStorage s fs (pureSearch m)).listBlobsResp c none =
        .ok (bl.map Prod.fst) := by
      simp only [envOfStorage]
      rw [hbl]
      simp [filter_pyStartsWith_empty]
    have hnames2 : (envOfStorage s fs (pureSearch m)).listBlobsResp c (some "") =
        .ok (bl.map Prod.fst) := by
      simp only [envOfStorage]
      rw [hbl]
      simp [filter_pyStartsWith_empty]
    have hsearch : (envOfStorage s fs (pureSearch m)).reSearch = pureSearch m := rfl
    constructor
    · simp only [search_blobs, hnames, cond_true, hsearch, listFilterSearch_pureSearch]
      cases hE : ((bl.map Prod.fst).filter m).isEmpty <;> rfl
    · simp only [list_blobs, hnames2, cond_true]
      cases hE : (bl.map Prod.fst).isEmpty <;> rfl
  · rfl

theorem claim_C3_witness :
    (search_blobs (envOfStorage exampleStorage [] (pureSearch (fun n => pyStartsWith "a" n)))
        true "docs" "^a").1 =
      .ok "Found 2 matching blobs in docs: abc, axy" ∧
    (list_blobs (envOfStorage exampleStorage [] (pureSearch (fun n => pyStartsWith "a" n)))
        true "docs" "").1 =
      .ok "Found 3 blobs in docs: abc, bcd, axy" := by
  have h := claim_C3.1 exampleStorage [] (fun n => pyStartsWith "a" n) "docs" "^a"
    exampleBlobs rfl
  exact ⟨h.1, h.2⟩

/-- Claim C6: with an initialized client and an honest storage service, on a
present blob `get_blob_info` returns the indented-JSON snapshot whose
`size_bytes` field is the byte length of the stored content and whose
`metadata` field is the stored key/value mapping (empty when none is set);
on an absent blob it returns the specific not-found message naming blob and
container. -/
theorem claim_C6 (s : Storage) (fs : List (String × List Nat))
    (rs : String → String → Except Exc Bool) (c b : String) :
    (∀ blob : Blob, s.findBlob c b = some blob →
      get_blob_info (envOfStorage s fs rs) true c b =
        (.ok (jsonDumpsBlobInfo
          { name := b, size_bytes := blob.content.length, content_type := blob.contentType,
            last_modified := blob.lastModified, creation_time := blob.creationTime,
            lease_status := blob.leaseStatus, metadata := blob.metadata }),
         [Event.client (Call.getBlobProperties c b)])) ∧
    (s.findBlob c b = none →
      get_blob_info (envOfStorage s fs rs) true c b =
        (.ok ("Blob '" ++ b ++ "' not found in container '" ++ c ++ "'."),
         [Event.client (Call.getBlobProperties c b)])) := by
  constructor
  · intro blob hfind
    have hresp : (envOfStorage s fs rs).getBlobPropertiesResp c b =
        .ok { size := blob.content.length, contentType := blob.contentType,
              lastModified := blob.lastModified, creationTime := blob.creationTime,
              leaseStatus := blob.leaseStatus, metadata := blob.metadata } := by
      simp only [envOfStorage]
      rw [hfind]
    simp only [get_blob_info, hresp, cond_true, ifEmptyList_eq]
  · intro hfind
    have hresp : (envOfStorage s fs rs).getBlobPropertiesResp c b =
        .error (.resourceNotFound "The specified blob does not exist.") := by
      simp only [envOfStorage]
      rw [hfind]
    simp only [get_blob_info, hresp, cond_true]

theorem claim_C6_witness :
    get_blob_info (envOfStorage storageC6 [] (fun _ _ => .ok false)) true "c" "b" =
      (.ok (jsonDumpsBlobInfo
        { name := "b", size_bytes := 3, content_type := some "text/plain",
          last_modified := "2024-01-02 03:04:05+00:00",
          creation_time := "2024-01-01 00:00:00+00:00",
          lease_status := "unlocked", metadata := [("k", "v")] }),
       [Event.client (Call.getBlobProperties "c" "b")]) ∧
    get_blob_info (envOfStorage storageC6 [] (fun _ _ => .ok false)) true "c" "nope" =
      (.ok "Blob 'nope' not found in container 'c'.",
       [Event.client (Call.getBlobProperties "c" "nope")]) := by
  have h := claim_C6 storageC6 [] (fun _ _ => .ok false) "c" "b"
  have h2 := claim_C6 storageC6 [] (fun _ _ => .ok false) "c" "nope"
  exact ⟨h.1 blobC6 rfl, h2.2 rfl⟩

/-- Claim C8 counterexample: over an existing container that lists no blobs,
a malformed pattern (modelled by `re.search` raising `re.error`, as pattern
compilation does) makes `search_blobs` return the no-match message, not the
generic failure text: the comprehension never invokes `re.search`. -/
theorem claim_C8_counterexample :
    (search_blobs envEmptyMalformed true "docs" "(").1 =
      .ok "No blobs matching pattern '(' found in docs." ∧
    "No blobs matching pattern '(' found in docs." ≠
      "Error searching blobs: " ++ reMalformedMsg := by
  constructor
  · rfl
  · decide

/-- Claim C8 (amended): with an initialized client, for every container
whose listing yields at least one blob name, a pattern whose compilation
fails (`re.search` raising `re.error` on every subject) makes `search_blobs`
return the generic failure text, through the same catch-all branch as
storage failures; when the listing is empty the no-match message is returned
instead, since `re.search` is never invoked. -/
theorem claim_C8 (env : Env) (c pattern msg : String) (names : List String)
    (hl : env.listBlobsResp c none = .ok names) (hne : names ≠ [])
    (hre : ∀ sbj, env.reSearch pattern sbj = .error (.reError msg)) :
    search_blobs env true c pattern =
      (.ok ("Error searching blobs: " ++ msg), [Event.client (Call.listBlobs c none)]) := by
  cases names with
  | nil => exact absurd rfl hne
  | cons a t =>
    simp only [search_blobs, hl, cond_true, listFilterSearch, hre a, Exc.str]

theorem claim_C8_witness :
    search_blobs envOneMalformed true "docs" "(" =
      (.ok ("Error searching blobs: " ++ reMalformedMsg),
       [Event.client (Call.listBlobs "docs" none)]) :=
  claim_C8 envOneMalformed "docs" "(" reMalformedMsg ["x.txt"] rfl (by decide) (fun _ => rfl)
